import Mathlib

/-!
Verification development for the yamux connection core
(`src/yamux/src/connection.rs` and `src/yamux/src/connection/closing.rs`).

The engine's data model and operations are embedded shallowly: machine
integers (`u32`, `usize`) become `Nat`, with an explicit `% 2 ^ 32`
wherever the Rust code performs wrapping 32-bit addition; the stream
table (`IntMap<StreamId, Stream>`) becomes an association list keyed by
the `id` field; the pending-frame queue (`VecDeque`) becomes a `List`
with `push_back` as append.  Code of the repository that lives outside
the provided sources (`stream.rs`, `frame/…`, `cleanup.rs`) is modelled
from the specification and marked as such in its doc comment.
-/

set_option maxHeartbeats 1000000

namespace Yamux

/-- The `DEFAULT_CREDIT` constant: 256 KiB (spec section 6.2). -/
def DEFAULT_CREDIT : Nat := 262144

/-- Modulus of 32-bit unsigned arithmetic; Rust `u32` addition is taken
modulo this value (release semantics of overflow). -/
def u32Mod : Nat := 2 ^ 32

/-- How the connection is used (`Mode` in connection.rs). -/
inductive Mode
  | Client
  | Server
deriving DecidableEq

/-- When to give the remote credit back (spec section 6.2). -/
inductive WindowUpdateMode
  | OnReceive
  | OnRead
deriving DecidableEq

/-- Recognised configuration options (spec section 6.2); immutable after
construction. -/
structure Config where
  receiveWindow : Nat
  maxBufferSize : Nat
  maxNumStreams : Nat
  windowUpdateMode : WindowUpdateMode
  splitSendSize : Nat
deriving DecidableEq

/-- Frame tags (spec section 6.1). -/
inductive Tag
  | Data
  | WindowUpdate
  | Ping
  | GoAway
deriving DecidableEq

/-- Header flag bits SYN/ACK/FIN/RST (spec section 6.1). -/
structure Flags where
  syn : Bool
  ack : Bool
  fin : Bool
  rst : Bool
deriving DecidableEq

/-- Modelled from the spec: a decoded frame (the `frame` module is not in
src/).  `len` is the length-or-credit-or-nonce-or-errorcode field of the
header (spec section 6.1); for data frames the body is represented by its
length, which is all the engine inspects. -/
structure Frame where
  tag : Tag
  flags : Flags
  streamId : Nat
  len : Nat
deriving DecidableEq

/-- The all-clear flag set. -/
def noFlags : Flags := ⟨false, false, false, false⟩

/-- Modelled from the spec: `Frame::window_update(id, credit)` — a
WindowUpdate frame with no flags (spec section 6.1). -/
def Frame.windowUpdate (id credit : Nat) : Frame := ⟨.WindowUpdate, noFlags, id, credit⟩

/-- Modelled from the spec: `Frame::window_update` followed by
`header_mut().syn()`, the initial frame of a locally opened stream
(spec section 4.4). -/
def Frame.windowUpdateSyn (id credit : Nat) : Frame :=
  ⟨.WindowUpdate, { noFlags with syn := true }, id, credit⟩

/-- Modelled from the spec: `Frame::close_stream(id, ack)` — a zero-length
data frame carrying FIN and optionally ACK (spec section 4.2, command
`CloseStream`). -/
def Frame.closeStream (id : Nat) (ack : Bool) : Frame :=
  ⟨.Data, { noFlags with fin := true, ack := ack }, id, 0⟩

/-- Modelled from the spec: `Header::data(id, 0)` with the RST bit set —
the zero-length reset frame. -/
def Frame.dataRst (id : Nat) : Frame := ⟨.Data, { noFlags with rst := true }, id, 0⟩

/-- Modelled from the spec: `Header::data(id, 0)` with the FIN bit set —
the zero-length half-close frame. -/
def Frame.dataFin (id : Nat) : Frame := ⟨.Data, { noFlags with fin := true }, id, 0⟩

/-- Modelled from the spec: the answer to a ping — `Header::ping(nonce)`
with the ACK bit set, addressed to the session ID 0 (spec sections 4.3
and 6.1). -/
def Frame.pingAck (nonce : Nat) : Frame := ⟨.Ping, { noFlags with ack := true }, 0, nonce⟩

/-- Modelled from the spec: `Frame::term()` — GoAway with code 0, Normal
termination (spec section 6.1). -/
def Frame.term : Frame := ⟨.GoAway, noFlags, 0, 0⟩

/-- Modelled from the spec: `Frame::protocol_error()` — GoAway with error
code 1 (spec section 6.1). -/
def Frame.protocolError : Frame := ⟨.GoAway, noFlags, 0, 1⟩

/-- Modelled from the spec: `Frame::internal_error()` — GoAway with error
code 2 (spec section 6.1). -/
def Frame.internalError : Frame := ⟨.GoAway, noFlags, 0, 2⟩

/-- Connection error kinds (`ConnectionError` in error.rs, not in src/;
modelled from spec section 7).  `Io` carries an opaque code standing for
the underlying I/O error. -/
inductive ConnectionError
  | Io (code : Nat)
  | Decode
  | NoMoreStreamIds
  | Closed
  | TooManyStreams
deriving DecidableEq

/-- Stream lifecycle states (`State` in stream.rs; spec section 3). -/
inductive State
  | Open
  | SendClosed
  | RecvClosed
  | Closed
deriving DecidableEq

/-- The pending flag piggybacked on the next outbound frame
(`stream::Flag`; spec section 3). -/
inductive Flag
  | None
  | Syn
  | Ack
deriving DecidableEq

/-- Modelled from the spec: a stream record together with its shared
state (stream.rs is not in src/).  The buffer holds the lengths of the
body chunks (spec section 3); `reader`/`writer` record whether a waker is
parked; `strongCount` is the reference count of the shared state (engine
table plus at most one external handle, spec section 3 invariant 1). -/
structure Stream where
  id : Nat
  state : State
  window : Nat
  credit : Nat
  buffer : List Nat
  flag : Flag
  reader : Bool
  writer : Bool
  strongCount : Nat
deriving DecidableEq

/-- Total number of buffered bytes (`Chunks::len`; spec section 3:
`buffer.total_len`). -/
def bufferLen (b : List Nat) : Nat := b.sum

/-- Modelled from the spec: `Stream::new` — a fresh stream record in
state `Open` with the given receive window and send credit, an empty
buffer, no pending flag, no parked wakers and a single reference (the
freshly created handle). -/
def Stream.new (id window credit : Nat) : Stream :=
  ⟨id, .Open, window, credit, [], .None, false, false, 1⟩

/-- Modelled from the spec: the monotone state transition of
`Shared::update_state` (stream.rs is not in src/): the state only ever
moves toward `Closed` (spec section 3 invariant 2); half-closing an
already half-closed stream in the other direction closes it. -/
def transitionState (cur next : State) : State :=
  match cur, next with
  | .Closed, _ => .Closed
  | .Open, n => n
  | .RecvClosed, .Closed => .Closed
  | .RecvClosed, .SendClosed => .Closed
  | .RecvClosed, _ => .RecvClosed
  | .SendClosed, .Closed => .Closed
  | .SendClosed, .RecvClosed => .Closed
  | .SendClosed, _ => .SendClosed

/-- Modelled from the spec: `Shared::update_state` returns the state the
stream was in *before* the update (the pre-state the garbage collector
matches on, spec section 4.5). -/
def Stream.updateState (s : Stream) (next : State) : State × Stream :=
  (s.state, { s with state := transitionState s.state next })

/-- Modelled from the spec: `Shared::next_window_update` (stream.rs is
not in src/).  Returns the credit to hand back to the remote: the bytes
consumed from the configured receive window — under `OnRead` less the
bytes still buffered — once the outstanding amount reaches the
window-update threshold (spec section 4.3 leaves the threshold
unspecified; it is modelled as half the configured receive window).
Nothing is handed back once no more inbound data is accepted. -/
def Stream.nextWindowUpdate (s : Stream) (cfg : Config) : Option Nat :=
  if s.state = .RecvClosed ∨ s.state = .Closed then
    none
  else
    let used := cfg.receiveWindow - s.window
    let newCredit :=
      match cfg.windowUpdateMode with
      | .OnReceive => used
      | .OnRead => used - bufferLen s.buffer
    if cfg.receiveWindow / 2 ≤ newCredit then some newCredit else none

/-- The stream table of the `Active` state, keyed by `Stream.id`
(`IntMap<StreamId, Stream>` in the source, embedded as a list). -/
def lookupStream (ss : List Stream) (sid : Nat) : Option Stream :=
  ss.find? (fun s => s.id == sid)

/-- Key membership in the stream table (`contains_key`). -/
def containsStream (ss : List Stream) (sid : Nat) : Bool :=
  (lookupStream ss sid).isSome

/-- Point update of the stream table: rewrite every record with the given
id (ids are unique in the table, so this is the `IntMap` update). -/
def updateStream (ss : List Stream) (sid : Nat) (g : Stream → Stream) : List Stream :=
  ss.map (fun s => if s.id == sid then g s else s)

/-- The `Active` connection engine (struct `Active` in connection.rs).
The socket, the random diagnostic id and the command-channel endpoints
are external collaborators and are not part of the embedded state. -/
structure Active where
  mode : Mode
  config : Config
  nextId : Nat
  streams : List Stream
  pendingFrames : List Frame
deriving DecidableEq

/-- `Active::new`: `next_id` starts at 1 for a client and 2 for a server,
with an empty stream table and no pending frames. -/
def Active.new (cfg : Config) (mode : Mode) : Active :=
  { mode := mode
    config := cfg
    nextId := match mode with | .Client => 1 | .Server => 2
    streams := []
    pendingFrames := [] }

/-- `StreamCommand`: commands sent from stream handles to the engine. -/
inductive StreamCommand
  | SendFrame (f : Frame)
  | CloseStream (id : Nat) (ack : Bool)
deriving DecidableEq

/-- Possible actions as a result of incoming frame handling (`Action` in
connection.rs). -/
inductive Action
  | None
  | New (s : Stream) (update : Option Frame)
  | Update (f : Frame)
  | Ping (f : Frame)
  | Reset (f : Frame)
  | Terminate (f : Frame)
deriving DecidableEq

/-- Whether an action terminates the connection (an `Action::Terminate`,
which enqueues a GoAway). -/
def Action.isTerminate : Action → Bool
  | .Terminate _ => true
  | _ => false

/-- `StreamId::is_client`: odd ids are opened by the client (spec
section 6.1). -/
def isClientId (id : Nat) : Bool := id % 2 == 1

/-- `StreamId::is_server`: even ids are opened by the server (spec
section 6.1). -/
def isServerId (id : Nat) : Bool := id % 2 == 0

/-- `Active::is_valid_remote_id`: connection-level tags require the
session id 0; otherwise the id's parity must match the remote's role. -/
def isValidRemoteId (a : Active) (id : Nat) (tag : Tag) : Bool :=
  match tag with
  | .Ping => id == 0
  | .GoAway => id == 0
  | _ =>
    match a.mode with
    | .Client => isServerId id
    | .Server => isClientId id

/-- `Active::on_data`, translated clause by clause from connection.rs:
RST closes the stream and wakes both wakers; SYN validates and creates a
new remote stream; otherwise the frame is dispatched to the stream in the
table, with the window check first, then FIN, then the buffer-overflow
reset, then the actual push; unknown ids are ignored. -/
def onData (a : Active) (f : Frame) : Active × Action :=
  let sid := f.streamId
  if f.flags.rst then
    match lookupStream a.streams sid with
    | some _ =>
      let streams := updateStream a.streams sid (fun s =>
        let s1 := (s.updateState .Closed).2
        { s1 with reader := false, writer := false })
      ({ a with streams := streams }, .None)
    | none => (a, .None)
  else
    let isFinish := f.flags.fin
    if f.flags.syn then
      if !(isValidRemoteId a sid .Data) then
        (a, .Terminate Frame.protocolError)
      else if DEFAULT_CREDIT < f.len then
        (a, .Terminate Frame.protocolError)
      else if containsStream a.streams sid then
        (a, .Terminate Frame.protocolError)
      else if a.streams.length = a.config.maxNumStreams then
        (a, .Terminate Frame.internalError)
      else
        let s0 := Stream.new sid DEFAULT_CREDIT DEFAULT_CREDIT
        let s1 := if isFinish then (s0.updateState .RecvClosed).2 else s0
        let s2 := { s1 with window := s1.window - f.len, buffer := s1.buffer ++ [f.len] }
        let wu :=
          match a.config.windowUpdateMode with
          | .OnReceive =>
            match s2.nextWindowUpdate a.config with
            | some credit =>
              let g := Frame.windowUpdate sid credit
              some ({ g with flags := { g.flags with ack := true } }, credit)
            | none => none
          | .OnRead => none
        let s3 :=
          match wu with
          | some (_, credit) => { s2 with window := (s2.window + credit) % u32Mod }
          | none => { s2 with flag := .Ack }
        let s4 := { s3 with strongCount := 2 }
        ({ a with streams := a.streams ++ [s4] }, .New s4 (wu.map Prod.fst))
    else
      match lookupStream a.streams sid with
      | some s =>
        if s.window < f.len then
          (a, .Terminate Frame.protocolError)
        else
          let s1 := if isFinish then (s.updateState .RecvClosed).2 else s
          if a.config.maxBufferSize ≤ bufferLen s1.buffer then
            ({ a with streams := updateStream a.streams sid (fun _ => s1) },
              .Reset (Frame.dataRst sid))
          else
            let s2 := { s1 with
              window := s1.window - f.len
              buffer := s1.buffer ++ [f.len]
              reader := false }
            match a.config.windowUpdateMode with
            | .OnReceive =>
              match s2.nextWindowUpdate a.config with
              | some credit =>
                let s3 := { s2 with window := (s2.window + credit) % u32Mod }
                ({ a with streams := updateStream a.streams sid (fun _ => s3) },
                  .Update (Frame.windowUpdate sid credit))
              | none =>
                ({ a with streams := updateStream a.streams sid (fun _ => s2) }, .None)
            | .OnRead =>
              ({ a with streams := updateStream a.streams sid (fun _ => s2) }, .None)
      | none => (a, .None)

/-- `Active::on_window_update`, translated clause by clause: RST closes
the stream; SYN validates and creates the stream with send credit
`credit() + DEFAULT_CREDIT` (wrapping 32-bit addition); for an existing
stream the advertised credit is added to `credit` (wrapping 32-bit
addition) and the writer is woken; unknown ids are ignored. -/
def onWindowUpdate (a : Active) (f : Frame) : Active × Action :=
  let sid := f.streamId
  if f.flags.rst then
    match lookupStream a.streams sid with
    | some _ =>
      let streams := updateStream a.streams sid (fun s =>
        let s1 := (s.updateState .Closed).2
        { s1 with reader := false, writer := false })
      ({ a with streams := streams }, .None)
    | none => (a, .None)
  else
    let isFinish := f.flags.fin
    if f.flags.syn then
      if !(isValidRemoteId a sid .WindowUpdate) then
        (a, .Terminate Frame.protocolError)
      else if containsStream a.streams sid then
        (a, .Terminate Frame.protocolError)
      else if a.streams.length = a.config.maxNumStreams then
        (a, .Terminate Frame.protocolError)
      else
        let credit := (f.len + DEFAULT_CREDIT) % u32Mod
        let s0 := Stream.new sid DEFAULT_CREDIT credit
        let s1 := { s0 with flag := .Ack }
        let s2 := if isFinish then (s1.updateState .RecvClosed).2 else s1
        let s3 := { s2 with strongCount := 2 }
        ({ a with streams := a.streams ++ [s3] }, .New s3 none)
    else
      match lookupStream a.streams sid with
      | some s =>
        let s1 := { s with credit := (s.credit + f.len) % u32Mod }
        let s2 := if isFinish then (s1.updateState .RecvClosed).2 else s1
        let s3 := { s2 with writer := false }
        ({ a with streams := updateStream a.streams sid (fun _ => s3) }, .None)
      | none => (a, .None)

/-- `Active::on_ping`: ACK pings are pongs for our own pings and are
discarded; a ping for the session id or a live stream is answered with
the same nonce and ACK; a ping for an unknown stream is ignored. -/
def onPing (a : Active) (f : Frame) : Action :=
  let sid := f.streamId
  if f.flags.ack then
    .None
  else if sid = 0 ∨ containsStream a.streams sid then
    .Ping (Frame.pingAck f.len)
  else
    .None

/-- `Active::on_frame`: a GoAway terminates with `Closed`; other frames
are dispatched by tag and the resulting `Action` is applied — `New`
yields the fresh stream (pushing its window update, if any), all other
frame-carrying actions are appended to `pending_frames`. -/
def onFrame (a : Active) (f : Frame) : Except ConnectionError (Active × Option Stream) :=
  match f.tag with
  | .GoAway => .error .Closed
  | _ =>
    let (a1, act) :=
      match f.tag with
      | .Data => onData a f
      | .WindowUpdate => onWindowUpdate a f
      | _ => (a, onPing a f)
    match act with
    | .None => .ok (a1, none)
    | .New s upd =>
      .ok ({ a1 with pendingFrames := a1.pendingFrames ++ upd.toList }, some s)
    | .Update g => .ok ({ a1 with pendingFrames := a1.pendingFrames ++ [g] }, none)
    | .Ping g => .ok ({ a1 with pendingFrames := a1.pendingFrames ++ [g] }, none)
    | .Reset g => .ok ({ a1 with pendingFrames := a1.pendingFrames ++ [g] }, none)
    | .Terminate g => .ok ({ a1 with pendingFrames := a1.pendingFrames ++ [g] }, none)

/-- `Active::next_stream_id`: hand out `next_id` and advance it by 2;
`checked_add` fails — with `NoMoreStreamIds` — exactly when the advance
would overflow 32 bits.  (The parity assertion of the source always holds
on reachable states and is not part of the result.) -/
def nextStreamId (a : Active) : Except ConnectionError (Nat × Active) :=
  let proposed := a.nextId
  if u32Mod ≤ a.nextId + 2 then
    .error .NoMoreStreamIds
  else
    .ok (proposed, { a with nextId := a.nextId + 2 })

/-- `Active::new_outbound`: refuse when the table is full, allocate the
next id, enqueue an initial SYN window update when the configured receive
window exceeds `DEFAULT_CREDIT` (otherwise defer SYN to the first data
frame), and insert the new stream into the table. -/
def newOutbound (a : Active) : Except ConnectionError (Stream × Active) :=
  if a.config.maxNumStreams ≤ a.streams.length then
    .error .TooManyStreams
  else
    match nextStreamId a with
    | .error e => .error e
    | .ok (id, a1) =>
      let extraCredit := a1.config.receiveWindow - DEFAULT_CREDIT
      let a2 :=
        if 0 < extraCredit then
          { a1 with pendingFrames := a1.pendingFrames ++ [Frame.windowUpdateSyn id extraCredit] }
        else a1
      let s0 := Stream.new id a2.config.receiveWindow DEFAULT_CREDIT
      let s1 := if extraCredit = 0 then { s0 with flag := .Syn } else s0
      let s2 := { s1 with strongCount := 2 }
      .ok (s2, { a2 with streams := a2.streams ++ [s2] })

/-- Which waker of a stream is woken. -/
inductive Side
  | reader
  | writer
deriving DecidableEq

/-- A waker-wakeup event emitted during the garbage-collection sweep. -/
structure Wake where
  id : Nat
  side : Side
deriving DecidableEq

/-- Result of the garbage-collection sweep over the stream table: the
surviving records, the frames pushed to `pending_frames` and the waker
wakeups performed, all in sweep order. -/
structure GcResult where
  streams : List Stream
  frames : List Frame
  wakes : List Wake
deriving DecidableEq

/-- Processing of one dropped stream inside `Active::garbage_collect`:
`update_state(.., Closed)` is matched on the returned pre-state to decide
the frame (Open ⇒ RST; RecvClosed ⇒ FIN; SendClosed ⇒ RST exactly when
the update mode is `OnRead` and the window is 0; Closed ⇒ none), and both
wakers are taken and woken. -/
def gcStream (mode : WindowUpdateMode) (s : Stream) : Option Frame × List Wake :=
  let (prior, s1) := s.updateState .Closed
  let frame :=
    match prior with
    | .Open => some (Frame.dataRst s.id)
    | .RecvClosed => some (Frame.dataFin s.id)
    | .SendClosed =>
      if mode = .OnRead ∧ s1.window = 0 then some (Frame.dataRst s.id) else none
    | .Closed => none
  (frame,
    (if s.reader then [⟨s.id, .reader⟩] else []) ++
      (if s.writer then [⟨s.id, .writer⟩] else []))

/-- The sweep of `Active::garbage_collect` over the stream table: records
still referenced by an external handle (`strong_count() > 1`) are kept
untouched; every other record is processed by `gcStream` and marked for
removal (the source collects the ids in `dropped_streams` and removes
them after the loop; removing them in place is the same function of the
table). -/
def gcSweep (mode : WindowUpdateMode) : List Stream → GcResult
  | [] => ⟨[], [], []⟩
  | s :: rest =>
    if 1 < s.strongCount then
      let r := gcSweep mode rest
      ⟨s :: r.streams, r.frames, r.wakes⟩
    else
      let (fr, wk) := gcStream mode s
      let r := gcSweep mode rest
      ⟨r.streams, fr.toList ++ r.frames, wk ++ r.wakes⟩

/-- `Active::garbage_collect`: run the sweep and append the produced
frames to `pending_frames`. -/
def garbageCollect (a : Active) : Active :=
  let r := gcSweep a.config.windowUpdateMode a.streams
  { a with streams := r.streams, pendingFrames := a.pendingFrames ++ r.frames }

/-- The result of polling a future (`std::task::Poll`). -/
inductive Poll (α : Type)
  | Ready (a : α)
  | Pending
deriving DecidableEq

/-- Environment oracle for one facade call: the outcomes of the
engine/driver polls that depend on the socket, the executor and the
command queue.  `activePoll` is the outcome of `Active::poll` (on success
the surfaced inbound stream together with the advanced engine state);
`closingPoll` the outcome of polling the `Closing` future; `cleanupPoll`
the completion of the `Cleanup` future, which — modelled from the spec,
section 4.8, cleanup.rs not being in src/ — yields the stored originating
error on completion. -/
structure Oracle where
  activePoll : Poll (Except ConnectionError (Stream × Active))
  closingPoll : Poll (Except ConnectionError Unit)
  cleanupPoll : Poll Unit

/-- The facade state (`ConnectionState` in connection.rs).  The `Closing`
and `Cleanup` payloads are the drivers; the Cleanup driver is represented
by the originating error it stores, the Closing driver's internals are
driven through the oracle. -/
inductive ConnectionState
  | Active (a : Yamux.Active)
  | Closing
  | Cleanup (e : ConnectionError)
  | Closed
  | Poisoned
deriving DecidableEq

/-- `Connection::poll_new_outbound`, with the source's `loop` over
`mem::replace(.., Poisoned)` unfolded: each `continue` re-enters the
match on the state just stored.  A `none` result models the
`unreachable!()` panic. -/
def pollNewOutbound (st : ConnectionState) (o : Oracle) :
    Option (Poll (Except ConnectionError Stream) × ConnectionState) :=
  match st with
  | .Active a =>
    match newOutbound a with
    | .ok (s, a1) => some (.Ready (.ok s), .Active a1)
    | .error e =>
      match o.cleanupPoll with
      | .Ready _ => some (.Ready (.error e), .Closed)
      | .Pending => some (.Pending, .Cleanup e)
  | .Closing =>
    match o.closingPoll with
    | .Ready (.ok _) => some (.Ready (.error .Closed), .Closed)
    | .Ready (.error e) => some (.Ready (.error e), .Closed)
    | .Pending => some (.Pending, .Closing)
  | .Cleanup e =>
    match o.cleanupPoll with
    | .Ready _ => some (.Ready (.error e), .Closed)
    | .Pending => some (.Pending, .Cleanup e)
  | .Closed => some (.Ready (.error .Closed), .Closed)
  | .Poisoned => none

/-- `Connection::poll_next_inbound`, unfolded the same way: an engine
error moves to `Cleanup` and keeps polling; a completed `Cleanup` whose
stored error is `Closed` reports end-of-stream, any other completion
yields the error once. -/
def pollNextInbound (st : ConnectionState) (o : Oracle) :
    Option (Poll (Option (Except ConnectionError Stream)) × ConnectionState) :=
  match st with
  | .Active a =>
    match o.activePoll with
    | .Ready (.ok (s, a1)) => some (.Ready (some (.ok s)), .Active a1)
    | .Ready (.error e) =>
      match o.cleanupPoll with
      | .Ready _ =>
        if e = .Closed then some (.Ready none, .Closed)
        else some (.Ready (some (.error e)), .Closed)
      | .Pending => some (.Pending, .Cleanup e)
    | .Pending => some (.Pending, .Active a)
  | .Closing =>
    match o.closingPoll with
    | .Ready (.ok _) => some (.Ready none, .Closed)
    | .Ready (.error e) => some (.Ready (some (.error e)), .Closed)
    | .Pending => some (.Pending, .Closing)
  | .Cleanup e =>
    match o.cleanupPoll with
    | .Ready _ =>
      if e = .Closed then some (.Ready none, .Closed)
      else some (.Ready (some (.error e)), .Closed)
    | .Pending => some (.Pending, .Cleanup e)
  | .Closed => some (.Ready none, .Closed)
  | .Poisoned => none

/-- `Connection::poll_close`, unfolded the same way.  The source's
`Closing` arm reads `match inner.poll_unpin(cx)?`: on `Ready(Err(e))` the
`?` operator returns from the function *before* `self.inner` is
reassigned, so the state stays at the `Poisoned` placeholder installed by
`mem::replace` — this is translated literally here. -/
def pollClose (st : ConnectionState) (o : Oracle) :
    Option (Poll (Except ConnectionError Unit) × ConnectionState) :=
  match st with
  | .Active _ =>
    match o.closingPoll with
    | .Ready (.ok _) => some (.Ready (.ok ()), .Closed)
    | .Ready (.error e) => some (.Ready (.error e), .Poisoned)
    | .Pending => some (.Pending, .Closing)
  | .Closing =>
    match o.closingPoll with
    | .Ready (.ok _) => some (.Ready (.ok ()), .Closed)
    | .Ready (.error e) => some (.Ready (.error e), .Poisoned)
    | .Pending => some (.Pending, .Closing)
  | .Cleanup e =>
    match o.cleanupPoll with
    | .Ready _ => some (.Ready (.ok ()), .Closed)
    | .Pending => some (.Pending, .Cleanup e)
  | .Closed => some (.Ready (.ok ()), .Closed)
  | .Poisoned => none

/-- The states of the graceful `Closing` driver
(`connection/closing.rs`). -/
inductive ClosingState
  | ClosingStreamReceiver
  | DrainingStreamReceiver
  | SendingTermFrame
  | FlushingPendingFrames
  | ClosingSocket
deriving DecidableEq

/-- Observable events of the Closing driver: a frame handed to the
socket (`start_send`), and the driving of the socket's close. -/
inductive ClosingEvent
  | Sent (f : Frame)
  | SocketClosed
deriving DecidableEq

/-- Conversion of a drained stream command into a frame, as in the
`DrainingStreamReceiver` arm of `Closing::poll`. -/
def StreamCommand.toFrame : StreamCommand → Frame
  | .SendFrame f => f
  | .CloseStream id ack => Frame.closeStream id ack

/-- Termination measure for the Closing driver's loop. -/
def closingRank : ClosingState → Nat
  | .ClosingStreamReceiver => 8
  | .DrainingStreamReceiver => 6
  | .SendingTermFrame => 4
  | .FlushingPendingFrames => 2
  | .ClosingSocket => 0

/-- The complete run of `Closing::poll`, translated arm by arm from the
source's loop.  `cmds` is the content of the already-closed stream-command
queue (closing the receiver — the `ClosingStreamReceiver` arm — fixes it:
no further commands can be enqueued) and `pend` the `pending_frames`
queue; the socket is assumed eventually ready at every suspension, so the
run is the completed trace of events. -/
def closingRun (st : ClosingState) (cmds : List StreamCommand) (pend : List Frame) :
    List ClosingEvent :=
  match st, cmds, pend with
  | .ClosingStreamReceiver, cmds, pend =>
    closingRun .DrainingStreamReceiver cmds pend
  | .DrainingStreamReceiver, c :: cmds, pend =>
    closingRun .DrainingStreamReceiver cmds (pend ++ [c.toFrame])
  | .DrainingStreamReceiver, [], pend =>
    closingRun .SendingTermFrame [] pend
  | .SendingTermFrame, cmds, pend =>
    closingRun .FlushingPendingFrames cmds (pend ++ [Frame.term])
  | .FlushingPendingFrames, cmds, f :: pend =>
    .Sent f :: closingRun .FlushingPendingFrames cmds pend
  | .FlushingPendingFrames, cmds, [] =>
    closingRun .ClosingSocket cmds []
  | .ClosingSocket, _, _ => [.SocketClosed]
termination_by 2 * cmds.length + pend.length + closingRank st
decreasing_by
  all_goals simp [closingRank]
  all_goals omega

/-- The frame the specification's garbage-collection table (section 4.5)
prescribes for a dropped stream, keyed directly on the stream's pre-state:
Open ⇒ zero-length RST; RecvClosed ⇒ zero-length FIN; SendClosed with
window 0 under OnRead ⇒ RST; otherwise no frame.  Stated from the spec's
words, for comparison with the sweep translated from the source. -/
def specGcFrame (mode : WindowUpdateMode) (s : Stream) : Option Frame :=
  match s.state with
  | .Open => some (Frame.dataRst s.id)
  | .RecvClosed => some (Frame.dataFin s.id)
  | .SendClosed =>
    if mode = .OnRead ∧ s.window = 0 then some (Frame.dataRst s.id) else none
  | .Closed => none

/-- The wakeups the specification prescribes for a dropped stream: both
wakers — whichever of the two is parked — are woken (spec section 4.5). -/
def specWakes (s : Stream) : List Wake :=
  (if s.reader then [⟨s.id, .reader⟩] else []) ++
    (if s.writer then [⟨s.id, .writer⟩] else [])

/-- Default configuration (spec section 6.2): receive window of
`DEFAULT_CREDIT`, 1 MiB buffer cap, 8192 streams, `OnReceive` updates. -/
def cfgDefault : Config := ⟨DEFAULT_CREDIT, 1048576, 8192, .OnReceive, DEFAULT_CREDIT⟩

/-- A live stream record with an external handle, as present in the
table after acceptance of a remote stream. -/
def streamEx (id : Nat) : Stream :=
  { Stream.new id DEFAULT_CREDIT DEFAULT_CREDIT with strongCount := 2 }

/-- Oracle in which every driver poll is pending. -/
def oPend : Oracle := ⟨.Pending, .Pending, .Pending⟩

/-- Oracle in which the Closing driver completes with an I/O error. -/
def oCloseErr : Oracle := ⟨.Pending, .Ready (.error (.Io 7)), .Pending⟩

/-- Oracle in which the Closing driver completes with a decode error. -/
def oClosingErr : Oracle := ⟨.Pending, .Ready (.error .Decode), .Pending⟩

/-- Oracle in which the Closing driver completes successfully. -/
def oClosingOk : Oracle := ⟨.Pending, .Ready (.ok ()), .Pending⟩

/-- Client engine whose table (capped at one stream) is full, holding
remote stream 4. -/
def aC3 : Active :=
  { mode := .Client, config := { cfgDefault with maxNumStreams := 1 },
    nextId := 1, streams := [streamEx 4], pendingFrames := [] }

/-- A WindowUpdate+SYN frame for the fresh, valid remote id 2. -/
def fC3 : Frame := ⟨.WindowUpdate, { noFlags with syn := true }, 2, 0⟩

/-- A Data+SYN frame for the fresh, valid remote id 2, with empty body. -/
def fD3 : Frame := ⟨.Data, { noFlags with syn := true }, 2, 0⟩

/-- Client engine holding the live remote stream 2. -/
def aC4 : Active :=
  { mode := .Client, config := cfgDefault, nextId := 1,
    streams := [streamEx 2], pendingFrames := [] }

/-- A Ping frame with nonce 7 addressed to the live stream 2. -/
def fC4 : Frame := ⟨.Ping, noFlags, 2, 7⟩

/-- Client engine with an empty stream table. -/
def aC5 : Active := Active.new cfgDefault .Client

/-- A Ping frame with nonce 5 addressed to the session id 0. -/
def fC5 : Frame := ⟨.Ping, noFlags, 0, 5⟩

/-- A Data frame of 3 bytes for the unknown stream id 8. -/
def fC5data : Frame := ⟨.Data, noFlags, 8, 3⟩

/-- Dropped stream record (no external handle) in state SendClosed with
an exhausted window. -/
def sC6 : Stream :=
  { streamEx 3 with strongCount := 1, state := .SendClosed, window := 0 }

/-- Stream 2 with an exhausted window and a full 4-byte buffer. -/
def sC7 : Stream := { streamEx 2 with window := 0, buffer := [4] }

/-- Client engine with a 4-byte buffer cap holding `sC7`. -/
def aC7 : Active :=
  { mode := .Client, config := { cfgDefault with maxBufferSize := 4 },
    nextId := 1, streams := [sC7], pendingFrames := [] }

/-- A 1-byte Data frame for stream 2 without flags. -/
def fC7 : Frame := ⟨.Data, noFlags, 2, 1⟩

/-- Stream 2 with a full 4-byte buffer but ample window. -/
def sW7 : Stream := { streamEx 2 with buffer := [4] }

/-- Client engine with a 4-byte buffer cap holding `sW7`. -/
def aW7 : Active :=
  { mode := .Client, config := { cfgDefault with maxBufferSize := 4 },
    nextId := 1, streams := [sW7], pendingFrames := [] }

/-- Client engine whose `next_id` is the last odd 32-bit value, so the
next allocation overflows. -/
def aC9 : Active :=
  { mode := .Client, config := cfgDefault, nextId := 4294967295,
    streams := [], pendingFrames := [] }

/-- Client engine with `next_id = 5` (after two allocations). -/
def aW9 : Active :=
  { mode := .Client, config := cfgDefault, nextId := 5,
    streams := [], pendingFrames := [] }

/-- Stream 2 whose send credit sits at the 32-bit maximum. -/
def sW10 : Stream := { streamEx 2 with credit := 4294967295 }

/-- Client engine holding `sW10`. -/
def aW10 : Active :=
  { mode := .Client, config := cfgDefault, nextId := 1,
    streams := [sW10], pendingFrames := [] }

/-- A WindowUpdate frame advertising 10 bytes of credit for stream 2. -/
def fW10 : Frame := ⟨.WindowUpdate, noFlags, 2, 10⟩

/-- A WindowUpdate+SYN frame advertising the 32-bit maximum credit for
the fresh remote id 2. -/
def fW10syn : Frame := ⟨.WindowUpdate, { noFlags with syn := true }, 2, 4294967295⟩

theorem lookup_of_contains_eq_false {ss : List Stream} {sid : Nat}
    (h : containsStream ss sid = false) : lookupStream ss sid = none := by
  cases hl : lookupStream ss sid with
  | none => rfl
  | some s => rw [containsStream, hl] at h; simp at h

theorem lookupStream_id {ss : List Stream} {sid : Nat} {s : Stream}
    (h : lookupStream ss sid = some s) : s.id = sid := by
  rw [lookupStream] at h
  have := List.find?_some h
  simpa using this

theorem lookupStream_updateStream (ss : List Stream) (sid : Nat) (g : Stream → Stream)
    (hg : ∀ t : Stream, t.id = sid → (g t).id = sid) :
    lookupStream (updateStream ss sid g) sid = (lookupStream ss sid).map g := by
  induction ss with
  | nil => rfl
  | cons s rest ih =>
    show List.find? (fun t => t.id == sid)
        ((if s.id == sid then g s else s) :: updateStream rest sid g)
        = ((s :: rest).find? (fun t => t.id == sid)).map g
    by_cases h : s.id = sid
    · have hs : (s.id == sid) = true := by simpa using h
      have hgs : ((g s).id == sid) = true := by simpa using hg s h
      rw [if_pos hs]
      simp [List.find?, hgs, hs]
    · have hs : (s.id == sid) = false := by simpa using h
      have hns : ¬ ((s.id == sid) = true) := by simp [hs]
      rw [if_neg hns]
      simp only [List.find?, hs]
      exact ih

/-- C1: the claim states that the `Poisoned` facade state is unreachable.
The code violates it: the `Closing` arm of `poll_close` reads
`inner.poll_unpin(cx)?`, so when the Closing driver completes with an
error, the `?` operator returns before `self.inner` is restored and the
connection is left `Poisoned`; the next call on the connection then
executes the `unreachable!()` branch (modelled as the `none` result).
This theorem evaluates the facade at that failing input — both entering
from `Active` and from `Closing` — and at the subsequent call. -/
theorem poll_close_error_poisons :
    pollClose (.Active aC5) oCloseErr = some (.Ready (.error (.Io 7)), .Poisoned)
    ∧ pollClose .Closing oCloseErr = some (.Ready (.error (.Io 7)), .Poisoned)
    ∧ pollClose .Poisoned oPend = none :=
  ⟨rfl, rfl, rfl⟩

/-- C2 counterexample: with the connection in `Closing` and the Closing
driver completing with a `Decode` error, `poll_next_inbound` returns
`Some(Err(Decode))` — not the end-of-stream `None` the claim states. -/
theorem next_inbound_closing_error_counterexample :
    pollNextInbound .Closing oClosingErr
      = some (.Ready (some (.error .Decode)), .Closed)
    ∧ (some (.error .Decode) : Option (Except ConnectionError Stream)) ≠ none :=
  ⟨rfl, by simp⟩

/-- C3 counterexample: a WindowUpdate+SYN frame for the valid fresh
remote id 2 arriving while the table holds `max_num_streams` (= 1)
streams makes `on_window_update` terminate with GoAway(ProtocolError),
not the GoAway(InternalError) the claim states. -/
theorem window_update_syn_at_max_counterexample :
    aC3.streams.length = aC3.config.maxNumStreams
    ∧ (onWindowUpdate aC3 fC3).2 = .Terminate Frame.protocolError
    ∧ (onWindowUpdate aC3 fC3).2 ≠ .Terminate Frame.internalError :=
  ⟨rfl, rfl, by decide⟩

/-- C4 counterexample: a Ping with nonce 7 addressed to the live stream
id 2 (not the session id 0) is answered with a pong, not treated as a
protocol error terminating the connection. -/
theorem ping_to_live_stream_counterexample :
    onPing aC4 fC4 = .Ping (Frame.pingAck 7)
    ∧ (onPing aC4 fC4).isTerminate = false
    ∧ fC4.streamId ≠ 0 :=
  ⟨rfl, rfl, by decide⟩

/-- C5 counterexample: a Ping without SYN addressed to stream id 0 —
which is never in the stream table — is answered with a pong, so the
dispatch does enqueue an outbound frame for an id not in the table. -/
theorem ping_to_session_id_counterexample :
    containsStream aC5.streams 0 = false
    ∧ onFrame aC5 fC5 = .ok ({ aC5 with pendingFrames := [Frame.pingAck 5] }, none)
    ∧ ({ aC5 with pendingFrames := [Frame.pingAck 5] }).pendingFrames ≠ aC5.pendingFrames :=
  ⟨rfl, rfl, by decide⟩

/-- C7 counterexample: a 1-byte data frame without SYN or RST for stream
2, whose buffer (4 bytes) is at the 4-byte cap but whose window is 0, is
answered with GoAway(ProtocolError) — the window check precedes the
buffer check — not with the stream-level RST the claim states. -/
theorem buffer_overflow_window_counterexample :
    containsStream aC7.streams 2 = true
    ∧ aC7.config.maxBufferSize ≤ bufferLen sC7.buffer
    ∧ onData aC7 fC7 = (aC7, .Terminate Frame.protocolError)
    ∧ (onData aC7 fC7).2 ≠ .Reset (Frame.dataRst 2) :=
  ⟨rfl, by decide, rfl, by decide⟩

/-- C9 counterexample: with `next_id` at the last odd 32-bit value, the
allocation fails with `NoMoreStreamIds`, but `poll_new_outbound` then
moves the facade into `Cleanup` — the connection does not remain
`Active` as the claim states. -/
theorem no_more_stream_ids_counterexample :
    newOutbound aC9 = .error .NoMoreStreamIds
    ∧ pollNewOutbound (.Active aC9) oPend = some (.Pending, .Cleanup .NoMoreStreamIds)
    ∧ ConnectionState.Cleanup .NoMoreStreamIds ≠ .Active aC9 :=
  ⟨rfl, rfl, by simp⟩

/-- C2 (amended): in `Closing` or `Cleanup`, `poll_next_inbound` drives
the driver to completion; on success — `Closing` finishing with `Ok`, or
`Cleanup` whose recorded error is `Closed` — it reports end-of-stream
(`None`); if the driver completes with any other error `e` it returns
`Some(Err(e))` instead, and in every completion case the state becomes
`Closed`, so the following call reports end-of-stream. -/
theorem next_inbound_after_close (o : Oracle) (e : ConnectionError) :
    (o.closingPoll = .Ready (.ok ()) →
      pollNextInbound .Closing o = some (.Ready none, .Closed))
    ∧ (o.closingPoll = .Ready (.error e) →
      pollNextInbound .Closing o = some (.Ready (some (.error e)), .Closed))
    ∧ (o.cleanupPoll = .Ready () → e = .Closed →
      pollNextInbound (.Cleanup e) o = some (.Ready none, .Closed))
    ∧ (o.cleanupPoll = .Ready () → e ≠ .Closed →
      pollNextInbound (.Cleanup e) o = some (.Ready (some (.error e)), .Closed))
    ∧ pollNextInbound .Closed o = some (.Ready none, .Closed) := by
  refine ⟨?_, ?_, ?_, ?_, rfl⟩
  · intro h; simp [pollNextInbound, h]
  · intro h; simp [pollNextInbound, h]
  · intro h he; subst he; simp [pollNextInbound, h]
  · intro h he; simp [pollNextInbound, h, he]

theorem next_inbound_after_close_witness :
    pollNextInbound .Closing oClosingOk = some (.Ready none, .Closed) :=
  (next_inbound_after_close oClosingOk .Decode).1 rfl

/-- C3 (amended): an inbound SYN frame that passes the earlier checks
(valid remote parity, for data frames a body no larger than
`DEFAULT_CREDIT`, id not already in the table) while the stream table
holds `max_num_streams` streams terminates the connection with
GoAway(InternalError) when it is a Data frame, but with
GoAway(ProtocolError) when it is a WindowUpdate frame. -/
theorem max_streams_goaway (a : Active) (f : Frame)
    (hsyn : f.flags.syn = true) (hrst : f.flags.rst = false)
    (hc : containsStream a.streams f.streamId = false)
    (hmax : a.streams.length = a.config.maxNumStreams) :
    (isValidRemoteId a f.streamId .Data = true → f.len ≤ DEFAULT_CREDIT →
      onData a f = (a, .Terminate Frame.internalError))
    ∧ (isValidRemoteId a f.streamId .WindowUpdate = true →
      onWindowUpdate a f = (a, .Terminate Frame.protocolError)) := by
  constructor
  · intro hv hlen
    have hnl : ¬ (DEFAULT_CREDIT < f.len) := not_lt.mpr hlen
    simp [onData, hrst, hsyn, hv, hc, hmax, hnl]
  · intro hv
    simp [onWindowUpdate, hrst, hsyn, hv, hc, hmax]

theorem max_streams_goaway_witness :
    onData aC3 fD3 = (aC3, .Terminate Frame.internalError)
    ∧ onWindowUpdate aC3 fC3 = (aC3, .Terminate Frame.protocolError) :=
  ⟨(max_streams_goaway aC3 fD3 rfl rfl rfl rfl).1 rfl (by decide),
   (max_streams_goaway aC3 fC3 rfl rfl rfl rfl).2 rfl⟩

/-- C4 (amended): inbound Ping frames are never treated as a protocol
error, whatever their stream id: an ACK ping (a pong) is discarded; a
ping addressed to the session id 0 or to a live stream is answered with
a Ping carrying the same nonce and ACK; a ping for an unknown non-zero
stream id is ignored. -/
theorem ping_handling (a : Active) (f : Frame) :
    (f.flags.ack = true → onPing a f = .None)
    ∧ (f.flags.ack = false → f.streamId = 0 →
      onPing a f = .Ping (Frame.pingAck f.len))
    ∧ (f.flags.ack = false → containsStream a.streams f.streamId = true →
      onPing a f = .Ping (Frame.pingAck f.len))
    ∧ (f.flags.ack = false → f.streamId ≠ 0 →
      containsStream a.streams f.streamId = false → onPing a f = .None)
    ∧ (onPing a f).isTerminate = false := by
  refine ⟨?_, ?_, ?_, ?_, ?_⟩
  · intro h; simp [onPing, h]
  · intro h hz; simp [onPing, h, hz]
  · intro h hc; simp [onPing, h, hc]
  · intro h hz hc; simp [onPing, h, hz, hc]
  · by_cases hack : f.flags.ack = true
    · simp [onPing, hack, Action.isTerminate]
    · have h : f.flags.ack = false := by simpa using hack
      by_cases hcond : f.streamId = 0 ∨ containsStream a.streams f.streamId = true
      · simp [onPing, h, hcond, Action.isTerminate]
      · simp [onPing, h, hcond, Action.isTerminate]

theorem ping_handling_witness :
    onPing aC4 fC4 = .Ping (Frame.pingAck 7) :=
  (ping_handling aC4 fC4).2.2.1 rfl rfl

/-- C5 (amended): an inbound Data, WindowUpdate or Ping frame addressed
to a stream id not in the table and not carrying SYN is handled without
terminating the connection and without enqueuing any outbound frame —
the dispatch leaves the engine unchanged — except that a Ping addressed
to the session id 0 (which is never a table entry) is answered with a
pong. -/
theorem unknown_id_tolerance (a : Active) (f : Frame)
    (hc : containsStream a.streams f.streamId = false)
    (hsyn : f.flags.syn = false)
    (hgo : f.tag ≠ .GoAway)
    (hping : f.tag = .Ping → f.streamId ≠ 0) :
    onFrame a f = .ok (a, none) := by
  have hl : lookupStream a.streams f.streamId = none := lookup_of_contains_eq_false hc
  obtain ⟨tag, flags, sid, len⟩ := f
  cases tag
  case Data =>
    cases hrst : flags.rst
    · simp_all [onFrame, onData]
    · simp_all [onFrame, onData]
  case WindowUpdate =>
    cases hrst : flags.rst
    · simp_all [onFrame, onWindowUpdate]
    · simp_all [onFrame, onWindowUpdate]
  case Ping =>
    have hz : sid ≠ 0 := hping rfl
    cases hack : flags.ack
    · simp_all [onFrame, onPing]
    · simp_all [onFrame, onPing]
  case GoAway => exact absurd rfl hgo

theorem unknown_id_tolerance_witness :
    onFrame aC4 fC5data = .ok (aC4, none) :=
  unknown_id_tolerance aC4 fC5data rfl rfl (by decide) (by decide)

theorem gcStream_eq (mode : WindowUpdateMode) (s : Stream) :
    gcStream mode s = (specGcFrame mode s, specWakes s) := by
  obtain ⟨id, st, w, c, b, fl, r, wr, k⟩ := s
  cases st <;> rfl

theorem gcSweep_eq (mode : WindowUpdateMode) (ss : List Stream) :
    gcSweep mode ss =
      ⟨ss.filter (fun s => decide (1 < s.strongCount)),
       (ss.filter (fun s => decide (s.strongCount ≤ 1))).filterMap (specGcFrame mode),
       (ss.filter (fun s => decide (s.strongCount ≤ 1))).flatMap specWakes⟩ := by
  induction ss with
  | nil => rfl
  | cons s rest ih =>
    by_cases h : 1 < s.strongCount
    · have h2 : ¬ (s.strongCount ≤ 1) := not_le.mpr h
      simp [gcSweep, h, h2, ih, List.filter_cons]
    · have h2 : s.strongCount ≤ 1 := not_lt.mp h
      simp only [gcSweep, if_neg h, gcStream_eq, ih, List.filter_cons,
        decide_eq_true_eq, h, h2, if_true, if_false, List.filterMap_cons,
        List.flatMap_cons, GcResult.mk.injEq, true_and, and_true]
      cases hsf : specGcFrame mode s <;> simp [hsf]

/-- C6: during a garbage-collection sweep, every stream whose external
handle has been dropped (strong count at most 1) contributes exactly the
frame of the spec's pre-state table — Open ⇒ zero-length RST;
RecvClosed ⇒ zero-length FIN; SendClosed ⇒ zero-length RST exactly when
the update mode is OnRead and the window is 0, otherwise nothing;
Closed ⇒ nothing — both of its wakers are woken, and the record is
removed from the table after the sweep, with the produced frames
appended to `pending_frames`. -/
theorem garbage_collect_spec (mode : WindowUpdateMode) (ss : List Stream) (a : Active) :
    (gcSweep mode ss).streams = ss.filter (fun s => decide (1 < s.strongCount))
    ∧ (gcSweep mode ss).frames
      = (ss.filter (fun s => decide (s.strongCount ≤ 1))).filterMap (specGcFrame mode)
    ∧ (gcSweep mode ss).wakes
      = (ss.filter (fun s => decide (s.strongCount ≤ 1))).flatMap specWakes
    ∧ (∀ s ∈ ss, s.strongCount ≤ 1 → s ∉ (gcSweep mode ss).streams)
    ∧ (garbageCollect a).pendingFrames
      = a.pendingFrames
        ++ (a.streams.filter (fun s => decide (s.strongCount ≤ 1))).filterMap
            (specGcFrame a.config.windowUpdateMode)
    ∧ (∀ s ∈ a.streams, s.strongCount ≤ 1 → s ∉ (garbageCollect a).streams) := by
  have h := gcSweep_eq mode ss
  have ha := gcSweep_eq a.config.windowUpdateMode a.streams
  refine ⟨by rw [h], by rw [h], by rw [h], ?_, ?_, ?_⟩
  · intro s hs hk hmem
    rw [h] at hmem
    have := (List.mem_filter.mp hmem).2
    simp at this
    omega
  · simp [garbageCollect, ha]
  · intro s hs hk hmem
    simp only [garbageCollect, ha] at hmem
    have := (List.mem_filter.mp hmem).2
    simp at this
    omega

theorem garbage_collect_spec_witness :
    sC6 ∉ (gcSweep .OnRead [sC6]).streams :=
  (garbage_collect_spec .OnRead [sC6] aC5).2.2.2.1 sC6 (by simp) (by decide)

/-- C7 (amended): a data frame without SYN or RST for a stream in the
table, whose body does not exceed the stream's window but whose buffer
is already at `max_buffer_size`, makes the engine enqueue a zero-length
RST data frame for that stream (after applying a FIN flag, if present,
to the stream's state); the stream stays in the table, its buffer is not
extended, and the connection is not terminated.  (When the body exceeds
the window, the earlier window check wins and the connection is
terminated instead, which is what forces the added hypothesis.) -/
theorem buffer_overflow_reset (a : Active) (f : Frame) (s : Stream)
    (htag : f.tag = .Data)
    (hsyn : f.flags.syn = false) (hrst : f.flags.rst = false)
    (hl : lookupStream a.streams f.streamId = some s)
    (hwin : f.len ≤ s.window)
    (hbuf : a.config.maxBufferSize ≤ bufferLen s.buffer) :
    onData a f
      = ({ a with streams := (updateStream a.streams f.streamId
            (fun _ => if f.flags.fin then (s.updateState .RecvClosed).2 else s)) },
         .Reset (Frame.dataRst f.streamId))
    ∧ (if f.flags.fin then (s.updateState .RecvClosed).2 else s).buffer = s.buffer
    ∧ lookupStream (onData a f).1.streams f.streamId
      = some (if f.flags.fin then (s.updateState .RecvClosed).2 else s)
    ∧ (onData a f).1.pendingFrames = a.pendingFrames
    ∧ ((onData a f).2).isTerminate = false
    ∧ onFrame a f
      = .ok ({ a with
          streams := (updateStream a.streams f.streamId
            (fun _ => if f.flags.fin then (s.updateState .RecvClosed).2 else s)),
          pendingFrames := a.pendingFrames ++ [Frame.dataRst f.streamId] }, none) := by
  have hid : s.id = f.streamId := lookupStream_id hl
  have hnw : ¬ (s.window < f.len) := not_lt.mpr hwin
  have hbuf2 :
      (if f.flags.fin then (s.updateState .RecvClosed).2 else s).buffer = s.buffer := by
    cases hfin : f.flags.fin <;> simp [Stream.updateState]
  have hmain : onData a f
      = ({ a with streams := (updateStream a.streams f.streamId
            (fun _ => if f.flags.fin then (s.updateState .RecvClosed).2 else s)) },
         .Reset (Frame.dataRst f.streamId)) := by
    cases hfin : f.flags.fin
    · simp [onData, hrst, hsyn, hl, hnw, hfin, hbuf]
    · simp only [onData, hrst, hsyn, hl, hnw, hfin, Bool.false_eq_true, if_false,
        if_true, ite_true, ite_false]
      simp [Stream.updateState, hbuf, hnw]
  have hg : ∀ t : Stream, t.id = f.streamId →
      ((fun _ => if f.flags.fin then (s.updateState .RecvClosed).2 else s) t).id
        = f.streamId := by
    intro t ht
    cases hfin : f.flags.fin <;> simp [Stream.updateState, hid]
  exact ⟨hmain, hbuf2,
    by rw [hmain]; exact (lookupStream_updateStream a.streams f.streamId _ hg).trans (by rw [hl]; rfl),
    by rw [hmain],
    by simp [hmain, Action.isTerminate],
    by rw [onFrame, htag]; simp only [hmain]⟩

theorem buffer_overflow_reset_witness :
    (onData aW7 fC7).2 = .Reset (Frame.dataRst 2)
    ∧ (onData aW7 fC7).1.pendingFrames = aW7.pendingFrames := by
  have h := buffer_overflow_reset aW7 fC7 sW7 rfl rfl rfl rfl (by decide) (by decide)
  exact ⟨by rw [h.1]; rfl, h.2.2.2.1⟩

theorem closingRun_flushing (cmds : List StreamCommand) (pend : List Frame) :
    closingRun .FlushingPendingFrames cmds pend
      = pend.map ClosingEvent.Sent ++ [ClosingEvent.SocketClosed] := by
  induction pend with
  | nil => simp [closingRun]
  | cons f rest ih => simp [closingRun, ih]

theorem closingRun_draining (cmds : List StreamCommand) (pend : List Frame) :
    closingRun .DrainingStreamReceiver cmds pend
      = ((pend ++ cmds.map StreamCommand.toFrame ++ [Frame.term]).map ClosingEvent.Sent)
        ++ [ClosingEvent.SocketClosed] := by
  induction cmds generalizing pend with
  | nil => simp [closingRun, closingRun_flushing]
  | cons c rest ih => simp [closingRun, ih]

/-- C8: the completed run of the Closing driver first converts every
drained stream command into a frame appended after the previously
pending frames, appends the GoAway(Normal) terminator only after the
queue is fully drained, hands every frame — the terminator last — to the
socket in that order, and drives the socket close only after all of
them. -/
theorem closing_trace (cmds : List StreamCommand) (pend : List Frame) :
    closingRun .ClosingStreamReceiver cmds pend
      = ((pend ++ cmds.map StreamCommand.toFrame ++ [Frame.term]).map ClosingEvent.Sent)
        ++ [ClosingEvent.SocketClosed] := by
  rw [closingRun]
  exact closingRun_draining cmds pend

/-- C9 (amended): a Client connection hands out successive local stream
ids 1, 3, 5, … and a Server connection 2, 4, 6, … (`next_id` starts at 1
resp. 2 and each successful allocation yields the current `next_id` and
advances it by 2); allocation fails with `NoMoreStreamIds` exactly when
adding 2 to `next_id` would overflow 32 bits — but the failure is treated
as fatal by the facade: `poll_new_outbound` moves the connection into
`Cleanup` carrying `NoMoreStreamIds` rather than leaving it `Active`. -/
theorem stream_id_allocation (cfg : Config) (a : Active) (o : Oracle) :
    (Active.new cfg .Client).nextId = 1
    ∧ (Active.new cfg .Server).nextId = 2
    ∧ (a.nextId + 2 < u32Mod →
      nextStreamId a = .ok (a.nextId, { a with nextId := a.nextId + 2 }))
    ∧ (u32Mod ≤ a.nextId + 2 → nextStreamId a = .error .NoMoreStreamIds)
    ∧ (a.nextId + 2 < u32Mod → a.streams.length < a.config.maxNumStreams →
      ∃ s a1, newOutbound a = .ok (s, a1) ∧ s.id = a.nextId ∧ a1.nextId = a.nextId + 2)
    ∧ (a.streams.length < a.config.maxNumStreams → u32Mod ≤ a.nextId + 2 →
      o.cleanupPoll = .Pending →
      pollNewOutbound (.Active a) o = some (.Pending, .Cleanup .NoMoreStreamIds)) := by
  refine ⟨rfl, rfl, ?_, ?_, ?_, ?_⟩
  · intro h
    simp [nextStreamId, not_le.mpr h]
  · intro h
    simp [nextStreamId, h]
  · intro h hlen
    have h1 : ¬ (a.config.maxNumStreams ≤ a.streams.length) := not_le.mpr hlen
    by_cases hec : a.config.receiveWindow - DEFAULT_CREDIT = 0
    · simp [newOutbound, nextStreamId, not_le.mpr h, h1, hec]
      exact ⟨_, _, ⟨rfl, rfl⟩, rfl, rfl⟩
    · have hpos : 0 < a.config.receiveWindow - DEFAULT_CREDIT := Nat.pos_of_ne_zero hec
      simp [newOutbound, nextStreamId, not_le.mpr h, h1, hec, hpos]
      exact ⟨_, _, ⟨rfl, rfl⟩, rfl, rfl⟩
  · intro hlen hov hcp
    have h1 : ¬ (a.config.maxNumStreams ≤ a.streams.length) := not_le.mpr hlen
    simp [pollNewOutbound, newOutbound, nextStreamId, h1, hov, hcp]

theorem stream_id_allocation_witness :
    nextStreamId aW9 = .ok (5, { aW9 with nextId := 7 }) :=
  (stream_id_allocation cfgDefault aW9 oPend).2.2.1 (by decide)

/-- C10: send-credit arithmetic on window updates is unchecked wrapping
32-bit addition: a SYN window update advertising credit `c` creates the
stream with send credit `(c + DEFAULT_CREDIT) mod 2^32` (and receive
window `DEFAULT_CREDIT`), and a window update for an existing stream
replaces its credit by `(credit + c) mod 2^32`; no overflow check or
clamping is applied in either case. -/
theorem window_update_credit_arithmetic (a : Active) (f : Frame) (s : Stream) :
    (f.flags.rst = false → f.flags.syn = true →
      isValidRemoteId a f.streamId .WindowUpdate = true →
      containsStream a.streams f.streamId = false →
      a.streams.length ≠ a.config.maxNumStreams →
      ∃ s1, (onWindowUpdate a f).2 = .New s1 none
        ∧ s1.credit = (f.len + DEFAULT_CREDIT) % u32Mod
        ∧ s1.window = DEFAULT_CREDIT)
    ∧ (f.flags.rst = false → f.flags.syn = false →
      lookupStream a.streams f.streamId = some s →
      (lookupStream (onWindowUpdate a f).1.streams f.streamId).map Stream.credit
        = some ((s.credit + f.len) % u32Mod)) := by
  constructor
  · intro hrst hsyn hv hc hmax
    cases hfin : f.flags.fin
    · exact ⟨{ Stream.new f.streamId DEFAULT_CREDIT ((f.len + DEFAULT_CREDIT) % u32Mod) with
          flag := .Ack, strongCount := 2 },
        by simp [onWindowUpdate, hrst, hsyn, hv, hc, hmax, hfin, Stream.new], rfl, rfl⟩
    · exact ⟨{ Stream.new f.streamId DEFAULT_CREDIT ((f.len + DEFAULT_CREDIT) % u32Mod) with
          flag := .Ack, state := .RecvClosed, strongCount := 2 },
        by simp [onWindowUpdate, hrst, hsyn, hv, hc, hmax, hfin, Stream.new,
          Stream.updateState, transitionState], rfl, rfl⟩
  · intro hrst hsyn hl
    have hid : s.id = f.streamId := lookupStream_id hl
    have hres : (onWindowUpdate a f).1.streams
        = updateStream a.streams f.streamId (fun _ =>
            { (if f.flags.fin
                then (({ s with credit := (s.credit + f.len) % u32Mod }).updateState
                  .RecvClosed).2
                else { s with credit := (s.credit + f.len) % u32Mod }) with
              writer := false }) := by
      simp [onWindowUpdate, hrst, hsyn, hl]
    have hg : ∀ t : Stream, t.id = f.streamId →
        ((fun _ =>
          { (if f.flags.fin
              then (({ s with credit := (s.credit + f.len) % u32Mod }).updateState
                .RecvClosed).2
              else { s with credit := (s.credit + f.len) % u32Mod }) with
            writer := false }) t).id = f.streamId := by
      intro t ht
      cases hfin : f.flags.fin <;> simp [Stream.updateState, hid]
    rw [hres, lookupStream_updateStream _ _ _ hg, hl]
    cases hfin : f.flags.fin <;> simp [Stream.updateState]

theorem window_update_credit_arithmetic_witness :
    (lookupStream (onWindowUpdate aW10 fW10).1.streams 2).map Stream.credit
      = some 9 := by
  have h := (window_update_credit_arithmetic aW10 fW10 sW10).2 rfl rfl rfl
  have h2 : (sW10.credit + fW10.len) % u32Mod = 9 := by decide
  show (lookupStream (onWindowUpdate aW10 fW10).1.streams fW10.streamId).map Stream.credit
    = some 9
  rw [h, h2]

end Yamux
